import Mathlib

/-!
Shallow embedding of `meto_app.py` (weather ingestion service).

Modelling conventions:
* Python floats are modelled as rationals: the claims under study depend only
  on equality and comparison of finite values, not on rounding.
* The SQLite table `weather` is modelled as a `List Row` in rowid order; the
  `UNIQUE(timestamp, latitude, longitude)` constraint together with
  `INSERT OR IGNORE` becomes `insertRow`, which appends a row exactly when its
  key is absent.  `conn.total_changes` on the per-call connection is the
  number of rows actually appended by `executemany`.
* Instants are whole seconds since 1970-01-01T00:00:00Z (as `Nat`); the code
  truncates `now` to whole seconds (`replace(microsecond=0)`) before
  formatting, so second precision is exact.  Calendar conversion follows the
  proleptic Gregorian calendar.
* Upstream JSON scalars are `JVal`: either a number, or a non-numeric value on
  which Python `float()` raises.
* SQLite `ORDER BY timestamp ASC` is modelled as sorting the filtered rows by
  the timestamp string; `>=` on the TEXT column is byte-wise (here: Lean
  `String` order, identical on ASCII data).
-/

/-- A scalar taken from the upstream JSON arrays: a number, or a value on
which `float()` raises. -/
inductive JVal where
  | num : ℚ → JVal
  | other : String → JVal
  deriving DecidableEq, Repr

/-- Python `float(v)` as applied on line 125 of `meto_app.py`: succeeds on a
number, raises (models `Except.error`) otherwise. -/
def pyFloat : JVal → Except String ℚ
  | .num q => .ok q
  | .other s => .error s

/-- One row of the `weather` table; the autoincrement `id` column is the list
position in the `Store`. -/
structure Row where
  ts : String
  temp : ℚ
  hum : ℚ
  lat : ℚ
  lon : ℚ
  deriving DecidableEq, Repr, Inhabited

/-- The natural key of a row: `UNIQUE(timestamp, latitude, longitude)`. -/
def Row.key (r : Row) : String × ℚ × ℚ :=
  (r.ts, r.lat, r.lon)

/-- The `weather` table, in rowid (insertion) order. -/
abbrev Store := List Row

/-- Whether some stored row already carries the key `k`. -/
def hasKey (s : Store) (k : String × ℚ × ℚ) : Bool :=
  s.any (fun r => decide (r.key = k))

/-- One `INSERT OR IGNORE` statement: appends the row when its key is absent
(1 change), leaves the table untouched when a row with the same key exists
(0 changes). -/
def insertRow (s : Store) (r : Row) : Store × Nat :=
  if hasKey s r.key then (s, 0) else (s ++ [r], 1)

/-- `insert_weather_rows` (`meto_app.py` lines 51-61): `executemany` runs the
`INSERT OR IGNORE` row by row; the returned count is `conn.total_changes` of
the fresh connection, i.e. the number of rows actually inserted. -/
def insert_weather_rows : Store → List Row → Store × Nat
  | s, [] => (s, 0)
  | s, r :: rest =>
    let p := insertRow s r
    let q := insert_weather_rows p.1 rest
    (q.1, p.2 + q.2)

/-- Civil date (year, month, day) of a day count since 1970-01-01 (proleptic
Gregorian; valid for all days since the epoch). -/
def civilFromDays (z : Nat) : Nat × Nat × Nat :=
  let zz := z + 719468
  let era := zz / 146097
  let doe := zz % 146097
  let yoe := (doe - doe / 1460 + doe / 36524 - doe / 146096) / 365
  let y := yoe + era * 400
  let doy := doe - (365 * yoe + yoe / 4 - yoe / 100)
  let mp := (5 * doy + 2) / 153
  let d := doy - (153 * mp + 2) / 5 + 1
  let m := if mp < 10 then mp + 3 else mp - 9
  (if m ≤ 2 then y + 1 else y, m, d)

/-- Day count since 1970-01-01 of a civil date (inverse of `civilFromDays`,
for dates from 1970 on). -/
def daysFromCivil (y m d : Nat) : Nat :=
  let y2 := if m ≤ 2 then y - 1 else y
  let era := y2 / 400
  let yoe := y2 % 400
  let mp := (m + 9) % 12
  let doy := (153 * mp + 2) / 5 + d - 1
  let doe := yoe * 365 + yoe / 4 - yoe / 100 + doy
  era * 146097 + doe - 719468

/-- Two-digit zero padding, as in `strftime`/`isoformat` fields. -/
def pad2 (n : Nat) : String :=
  if n < 10 then "0" ++ toString n else toString n

/-- `datetime.isoformat()` of an aware UTC datetime with `microsecond=0`:
the canonical `YYYY-MM-DDTHH:MM:SS+00:00` form used for the window bound. -/
def isoUtc (t : Nat) : String :=
  let c := civilFromDays (t / 86400)
  let secs := t % 86400
  toString c.1 ++ "-" ++ pad2 c.2.1 ++ "-" ++ pad2 c.2.2 ++ "T" ++
    pad2 (secs / 3600) ++ ":" ++ pad2 (secs % 3600 / 60) ++ ":" ++
    pad2 (secs % 60) ++ "+00:00"

/-- `strftime('%Y-%m-%d %H:%M UTC')`, used for the report date-range line. -/
def strftimeUTC (t : Nat) : String :=
  let c := civilFromDays (t / 86400)
  let secs := t % 86400
  toString c.1 ++ "-" ++ pad2 c.2.1 ++ "-" ++ pad2 c.2.2 ++ " " ++
    pad2 (secs / 3600) ++ ":" ++ pad2 (secs % 3600 / 60) ++ " UTC"

/-- Strict byte-wise lexicographic comparison of character lists: SQLite
compares TEXT values with the BINARY collation (memcmp); on the ASCII data
involved here that is exactly lexicographic comparison of the code points. -/
def charListLt : List Char → List Char → Bool
  | _, [] => false
  | [], _ :: _ => true
  | a :: as, b :: bs =>
    if a < b then true
    else if b < a then false
    else charListLt as bs

/-- The SQL `?1 <= ?2` on two TEXT operands (BINARY collation). -/
def sqlLeb (a b : String) : Bool :=
  !charListLt b.data a.data

/-- `fetch_last_48h` (`meto_app.py` lines 64-83): computes
`since = now - 48h` truncated to whole seconds, renders it as an ISO string,
and runs the SQL query.  The TEXT comparison `timestamp >= ?` is a string
comparison (`sqlLeb`); `ORDER BY timestamp ASC` sorts by the timestamp
string.  The location filter applies only when both `lat` and `lon` are
given (the code checks `lat is None or lon is None`). -/
def fetch_last_48h (nowF : Nat) (s : Store) (lat lon : Option ℚ) : List Row :=
  let sinceIso := isoUtc (nowF - 172800)
  let base :=
    match lat, lon with
    | some la, some lo =>
      s.filter (fun r => sqlLeb sinceIso r.ts && decide (r.lat = la) &&
        decide (r.lon = lo))
    | _, _ => s.filter (fun r => sqlLeb sinceIso r.ts)
  List.insertionSort (fun a b => sqlLeb a.ts b.ts = true) base

/-- The `hourly` member of the upstream JSON: each of the three parallel
arrays may be absent (`hourly.get(..., [])` then defaults it to `[]`). -/
structure HourlyJson where
  time : Option (List String)
  temperature_2m : Option (List JVal)
  relative_humidity_2m : Option (List JVal)
  deriving DecidableEq, Repr

/-- The upstream response body; `hourly = none` models a missing (or falsy,
i.e. empty) `hourly` object, matching the `if not hourly` check. -/
structure UpstreamJson where
  hourly : Option HourlyJson
  deriving DecidableEq, Repr

/-- Default scalar used to express `getD` reads inside bounds. -/
def dfltJ : JVal := .num 0

/-- Default timestamp string for `getD` reads inside bounds. -/
def emptyStr : String := ""

/-- A default row, for `getD` reads inside bounds. -/
def dfltRow : Row := ⟨emptyStr, 0, 0, 0, 0⟩

/-- The list comprehension of `meto_app.py` lines 124-127, over an explicit
index list: for each index, `float(temps[i])` then `float(hums[i])` is
evaluated; the first failing conversion aborts the whole comprehension with
that exception (nothing is inserted in that case). -/
def buildRowsAux (lat lon : ℚ) (times : List String) (temps hums : List JVal) :
    List Nat → Except String (List Row)
  | [] => .ok []
  | i :: is =>
    match pyFloat (temps.getD i dfltJ) with
    | .error e => .error e
    | .ok t =>
      match pyFloat (hums.getD i dfltJ) with
      | .error e => .error e
      | .ok h =>
        match buildRowsAux lat lon times temps hums is with
        | .error e => .error e
        | .ok rest => .ok (⟨times.getD i emptyStr, t, h, lat, lon⟩ :: rest)

/-- The `rows` comprehension over `range(length)`. -/
def buildRows (lat lon : ℚ) (times : List String) (temps hums : List JVal)
    (len : Nat) : Except String (List Row) :=
  buildRowsAux lat lon times temps hums (List.range len)

/-- The truncated length `min(len(times), len(temps), len(hums))` of
`meto_app.py` line 123. -/
def minLen (times : List String) (temps hums : List JVal) : Nat :=
  min (min times.length temps.length) hums.length

/-- Detail of the 502 raised when the response has no usable `hourly` key. -/
def msgMissingHourly : String :=
  "Open-Meteo response missing hourly key."

/-- The success message of the `/weather-report` endpoint. -/
def msgStored : String :=
  "Weather data fetched and stored."

/-- The JSON body returned by the `/weather-report` endpoint (the fields the
claims are about). -/
structure ReportResult where
  message : String
  lat : ℚ
  lon : ℚ
  requested_records : Nat
  db_inserted_rows : Nat
  deriving DecidableEq, Repr

/-- `weather_report` (`meto_app.py` lines 110-136), after a successful
upstream fetch returning `data`: validates the `hourly` key (502 on a missing
or falsy value), defaults each missing array to `[]`, truncates to the
minimum length, converts each scalar with `float` (an exception aborts the
request), inserts the rows and reports the counts.  The updated store is
returned alongside the response. -/
def weather_report (lat lon : ℚ) (data : UpstreamJson) (s : Store) :
    Except String (ReportResult × Store) :=
  match data.hourly with
  | none => .error msgMissingHourly
  | some hourly =>
    let times := hourly.time.getD []
    let temps := hourly.temperature_2m.getD []
    let hums := hourly.relative_humidity_2m.getD []
    let len := minLen times temps hums
    match buildRows lat lon times temps hums len with
    | .error e => .error e
    | .ok rows =>
      let p := insert_weather_rows s rows
      .ok (⟨msgStored, lat, lon, rows.length, p.2⟩, p.1)

/-- One flowable appended to the ReportLab `story`: a styled paragraph, a
spacer, or the embedded chart image (the chart internals are the rendering
collaborator, out of scope; only its presence matters to the claims). -/
inductive PdfElem where
  | para : String → String → PdfElem
  | spacer : PdfElem
  | image : PdfElem
  deriving DecidableEq, Repr, Inhabited

/-- Python truthiness of an optional float, as used by `if lat and lon` on
line 217: `None` and `0.0` are falsy. -/
def pyTruthy : Option ℚ → Bool
  | none => false
  | some q => decide (q ≠ 0)

/-- Rendering of a float in the f-string on line 217 (the exact digits are
irrelevant to the claims; only which branch is taken matters). -/
def ratStr (q : ℚ) : String :=
  toString q.num ++ "/" ++ toString q.den

/-- `export_pdf` (`meto_app.py` lines 160-235), as the story of flowables
handed to the document sink.  `nowPdf` is the `datetime.utcnow()` read on
line 215 and `nowF` the clock read inside `fetch_last_48h`; both are the
request time.  Empty query result: title plus no-data notice only.
Otherwise: title, spacer, location line (`if lat and lon` truthiness),
date-range line from `now - 48h` to `now`, spacer, chart image. -/
def export_pdf (nowPdf nowF : Nat) (s : Store) (lat lon : Option ℚ) :
    List PdfElem :=
  let rows := fetch_last_48h nowF s lat lon
  if rows = [] then
    [.para ("Title") ("Weather Report"),
     .para ("Normal") ("No data available for last 48 hours.")]
  else
    let date_range := strftimeUTC (nowPdf - 172800) ++ " to " ++
      strftimeUTC nowPdf
    let location :=
      if pyTruthy lat && pyTruthy lon then
        "lat=" ++ ratStr (lat.getD 0) ++ ", lon=" ++ ratStr (lon.getD 0)
      else
        "All locations"
    [.para ("Title") ("Weather Report"),
     .spacer,
     .para ("Normal") ("<b>Location:</b> " ++ location),
     .para ("Normal") ("<b>Date range:</b> " ++ date_range),
     .spacer,
     .image]

/-- Reads two decimal digit characters as a number. -/
def twoDigits (a b : Char) : Option Nat :=
  if a.isDigit && b.isDigit then
    some ((a.toNat - 48) * 10 + (b.toNat - 48))
  else
    none

/-- Modelled from the spec: the spec declares `timestamp` a "timezone-aware
instant, stored in a sortable canonical string form (ISO-8601, UTC)" and the
window condition as "timestamp >= since" on instants.  This reads such an
ISO-8601 UTC timestamp back as an instant (seconds since the epoch), for
timestamps of the forms `YYYY-MM-DDTHH:MM`, `YYYY-MM-DDTHH:MM:SS` and
`YYYY-MM-DDTHH:MM:SS+00:00`. -/
def specTimestampInstant (ts : String) : Option Nat :=
  match ts.toList with
  | y1 :: y2 :: y3 :: y4 :: '-' :: m1 :: m2 :: '-' :: d1 :: d2 :: 'T' ::
      h1 :: h2 :: ':' :: n1 :: n2 :: rest =>
    match twoDigits y1 y2, twoDigits y3 y4, twoDigits m1 m2, twoDigits d1 d2,
        twoDigits h1 h2, twoDigits n1 n2 with
    | some yh, some yl, some mo, some dy, some hr, some mi =>
      let secOf : List Char → Option Nat := fun cs =>
        match cs with
        | [] => some 0
        | ':' :: s1 :: s2 :: more =>
          match twoDigits s1 s2, more with
          | some sec, [] => some sec
          | some sec, ['+', '0', '0', ':', '0', '0'] => some sec
          | _, _ => none
        | _ => none
      match secOf rest with
      | some sec =>
        some (daysFromCivil (yh * 100 + yl) mo dy * 86400 +
          hr * 3600 + mi * 60 + sec)
      | none => none
    | _, _, _, _, _, _ => none
  | _ => none

/-- The key multiset of a store has no duplicate: the invariant guaranteed by
the `UNIQUE(timestamp, latitude, longitude)` index. -/
def NodupKeys (s : Store) : Prop :=
  (s.map Row.key).Nodup

/-- The store produced from the empty table by a sequence of
`insert_weather_rows` calls. -/
def runBatches (bs : List (List Row)) : Store :=
  bs.foldl (fun s b => (insert_weather_rows s b).1) []

theorem charListLt_asymm : ∀ a b : List Char,
    charListLt a b = true → charListLt b a = true → False
  | [], [], h1, _ => nomatch h1
  | [], _ :: _, _, h2 => nomatch h2
  | _ :: _, [], h1, _ => nomatch h1
  | a :: as, b :: bs, h1, h2 => by
    simp only [charListLt] at h1 h2
    by_cases hab : a < b
    · have hba : ¬ b < a := lt_asymm hab
      rw [if_neg hba, if_pos hab] at h2
      exact nomatch h2
    · rw [if_neg hab] at h1
      by_cases hba : b < a
      · rw [if_pos hba] at h1
        exact nomatch h1
      · rw [if_neg hba] at h1
        rw [if_neg hba, if_neg hab] at h2
        exact charListLt_asymm as bs h1 h2

theorem charListLt_false_trans : ∀ a b c : List Char,
    charListLt a b = false → charListLt b c = false → charListLt a c = false
  | [], _, [], _, _ => rfl
  | _ :: _, _, [], _, _ => rfl
  | [], [], _ :: _, _, h2 => h2
  | [], _ :: _, _ :: _, h1, _ => nomatch h1
  | _ :: _, [], _ :: _, _, h2 => nomatch h2
  | a :: as, b :: bs, c :: cs, h1, h2 => by
    simp only [charListLt] at h1 h2 ⊢
    by_cases hab : a < b
    · rw [if_pos hab] at h1
      exact nomatch h1
    · rw [if_neg hab] at h1
      by_cases hbc : b < c
      · rw [if_pos hbc] at h2
        exact nomatch h2
      · rw [if_neg hbc] at h2
        have hac : ¬ a < c := by
          intro h
          exact absurd (lt_of_lt_of_le (lt_of_lt_of_le h (le_of_not_lt hbc))
            (le_of_not_lt hab)) (lt_irrefl a)
        rw [if_neg hac]
        by_cases hca : c < a
        · rw [if_pos hca]
        · rw [if_neg hca]
          by_cases hba : b < a
          · exact absurd (lt_of_le_of_lt (le_of_not_lt hbc) hba) hca
          · rw [if_neg hba] at h1
            by_cases hcb : c < b
            · exact absurd (lt_of_lt_of_le hcb (le_of_not_lt hab)) hca
            · rw [if_neg hcb] at h2
              exact charListLt_false_trans as bs cs h1 h2

theorem sqlLeb_total (a b : String) : sqlLeb a b = true ∨ sqlLeb b a = true := by
  unfold sqlLeb
  cases h : charListLt b.data a.data with
  | false => exact Or.inl rfl
  | true =>
    refine Or.inr ?_
    cases h2 : charListLt a.data b.data with
    | false => rfl
    | true => exact (charListLt_asymm _ _ h2 h).elim

theorem sqlLeb_trans (a b c : String) (h1 : sqlLeb a b = true)
    (h2 : sqlLeb b c = true) : sqlLeb a c = true := by
  unfold sqlLeb at h1 h2 ⊢
  rw [Bool.not_eq_true'] at h1 h2 ⊢
  exact charListLt_false_trans c.data b.data a.data h2 h1

instance rowLeTotal : IsTotal Row (fun a b => sqlLeb a.ts b.ts = true) :=
  ⟨fun a b => sqlLeb_total a.ts b.ts⟩

instance rowLeTrans : IsTrans Row (fun a b => sqlLeb a.ts b.ts = true) :=
  ⟨fun a b c => sqlLeb_trans a.ts b.ts c.ts⟩

theorem hasKey_iff_mem (s : Store) (k : String × ℚ × ℚ) :
    hasKey s k = true ↔ k ∈ s.map Row.key := by
  simp [hasKey, List.any_eq_true, List.mem_map]

theorem insertRow_of_present {s : Store} {r : Row} (h : hasKey s r.key = true) :
    insertRow s r = (s, 0) := by
  simp [insertRow, h]

theorem hasKey_insertRow_mono {s : Store} {k : String × ℚ × ℚ} (r : Row)
    (h : hasKey s k = true) : hasKey (insertRow s r).1 k = true := by
  unfold insertRow
  split
  · exact h
  · simp only [hasKey, List.any_eq_true] at h ⊢
    rcases h with ⟨x, hx, hk⟩
    exact ⟨x, List.mem_append_left _ hx, hk⟩

theorem hasKey_insertRow_self (s : Store) (r : Row) :
    hasKey (insertRow s r).1 r.key = true := by
  unfold insertRow
  split
  · assumption
  · simp only [hasKey, List.any_eq_true]
    exact ⟨r, List.mem_append_right _ (List.mem_singleton_self r), by simp⟩

theorem hasKey_insert_rows_mono (rows : List Row) :
    ∀ (s : Store) {k : String × ℚ × ℚ}, hasKey s k = true →
      hasKey (insert_weather_rows s rows).1 k = true := by
  induction rows with
  | nil => intro s k h; exact h
  | cons a rest ih =>
    intro s k h
    simp only [insert_weather_rows]
    exact ih _ (hasKey_insertRow_mono a h)

theorem mem_hasKey_insert_rows (rows : List Row) :
    ∀ (s : Store) (r : Row), r ∈ rows →
      hasKey (insert_weather_rows s rows).1 r.key = true := by
  induction rows with
  | nil => intro s r h; cases h
  | cons a rest ih =>
    intro s r h
    simp only [insert_weather_rows]
    rcases List.mem_cons.mp h with rfl | hr
    · exact hasKey_insert_rows_mono rest _ (hasKey_insertRow_self s r)
    · exact ih _ r hr

theorem insert_rows_all_present (rows : List Row) :
    ∀ s : Store, (∀ r ∈ rows, hasKey s r.key = true) →
      insert_weather_rows s rows = (s, 0) := by
  induction rows with
  | nil => intro s _; rfl
  | cons a rest ih =>
    intro s h
    have ha : insertRow s a = (s, 0) := insertRow_of_present (h a (by simp))
    have hr := ih s (fun r hr => h r (List.mem_cons_of_mem _ hr))
    simp only [insert_weather_rows, ha, hr]

theorem insert_rows_count_le (rows : List Row) :
    ∀ s : Store, (insert_weather_rows s rows).2 ≤ rows.length := by
  induction rows with
  | nil => intro s; simp [insert_weather_rows]
  | cons a rest ih =>
    intro s
    simp only [insert_weather_rows, List.length_cons]
    have h1 : (insertRow s a).2 ≤ 1 := by
      unfold insertRow
      split <;> simp
    have h2 := ih (insertRow s a).1
    omega

theorem nodupKeys_insertRow {s : Store} (r : Row) (h : NodupKeys s) :
    NodupKeys (insertRow s r).1 := by
  unfold insertRow
  split
  · exact h
  next hk =>
    unfold NodupKeys at h ⊢
    rw [List.map_append, List.nodup_append]
    refine ⟨h, by simp, ?_⟩
    intro k hk1 hk2
    simp only [List.map_cons, List.map_nil, List.mem_singleton] at hk2
    subst hk2
    exact hk ((hasKey_iff_mem s r.key).mpr hk1)

theorem nodupKeys_insert_rows (rows : List Row) :
    ∀ s : Store, NodupKeys s → NodupKeys (insert_weather_rows s rows).1 := by
  induction rows with
  | nil => intro s h; exact h
  | cons a rest ih =>
    intro s h
    simp only [insert_weather_rows]
    exact ih _ (nodupKeys_insertRow a h)

theorem nodupKeys_runBatches (bs : List (List Row)) : NodupKeys (runBatches bs) := by
  have h : ∀ s : Store, NodupKeys s →
      NodupKeys (bs.foldl (fun s b => (insert_weather_rows s b).1) s) := by
    induction bs with
    | nil => intro s h; exact h
    | cons b rest ih =>
      intro s h
      exact ih _ (nodupKeys_insert_rows b s h)
  exact h [] (by simp [NodupKeys])

theorem insert_rows_append (l₁ l₂ : List Row) :
    ∀ s : Store, insert_weather_rows s (l₁ ++ l₂) =
      ((insert_weather_rows (insert_weather_rows s l₁).1 l₂).1,
       (insert_weather_rows s l₁).2 +
         (insert_weather_rows (insert_weather_rows s l₁).1 l₂).2) := by
  induction l₁ with
  | nil => intro s; simp [insert_weather_rows]
  | cons a rest ih =>
    intro s
    simp only [List.cons_append, insert_weather_rows, List.append_eq]
    rw [ih]
    simp [Nat.add_assoc]

theorem insert_rows_skip_dup (s : Store) (l₁ l₂ : List Row) (r : Row)
    (h : hasKey (insert_weather_rows s l₁).1 r.key = true) :
    insert_weather_rows s (l₁ ++ r :: l₂) = insert_weather_rows s (l₁ ++ l₂) := by
  rw [insert_rows_append, insert_rows_append]
  have h1 : insertRow (insert_weather_rows s l₁).1 r =
      ((insert_weather_rows s l₁).1, 0) := insertRow_of_present h
  simp only [insert_weather_rows, h1]
  simp

theorem buildRowsAux_error (lat lon : ℚ) (times : List String)
    (temps hums : List JVal) (i : Nat) :
    ∀ is : List Nat, i ∈ is →
      ((∃ e, pyFloat (temps.getD i dfltJ) = .error e) ∨
       (∃ e, pyFloat (hums.getD i dfltJ) = .error e)) →
      ∃ e, buildRowsAux lat lon times temps hums is = .error e := by
  intro is
  induction is with
  | nil => intro h; cases h
  | cons j js ih =>
    intro hmem hbad
    simp only [buildRowsAux]
    rcases List.mem_cons.mp hmem with rfl | hj
    · rcases hbad with ⟨e, he⟩ | ⟨e, he⟩
      · rw [he]
        exact ⟨e, rfl⟩
      · cases hpt : pyFloat (temps.getD i dfltJ) with
        | error e2 => exact ⟨e2, rfl⟩
        | ok t =>
          rw [he]
          exact ⟨e, rfl⟩
    · obtain ⟨e, he⟩ := ih hj hbad
      cases hpt : pyFloat (temps.getD j dfltJ) with
      | error e2 => exact ⟨e2, rfl⟩
      | ok t =>
        cases hph : pyFloat (hums.getD j dfltJ) with
        | error e2 => exact ⟨e2, rfl⟩
        | ok hv =>
          rw [he]
          exact ⟨e, rfl⟩

theorem buildRowsAux_ok (lat lon : ℚ) (times : List String)
    (temps hums : List JVal) :
    ∀ is : List Nat,
      (∀ i ∈ is, (∃ q, pyFloat (temps.getD i dfltJ) = .ok q) ∧
                 (∃ q, pyFloat (hums.getD i dfltJ) = .ok q)) →
      ∃ rows, buildRowsAux lat lon times temps hums is = .ok rows ∧
        rows.length = is.length ∧
        ∀ k, k < is.length →
          (rows.getD k dfltRow).ts = times.getD (is.getD k 0) emptyStr ∧
          pyFloat (temps.getD (is.getD k 0) dfltJ) =
            .ok (rows.getD k dfltRow).temp ∧
          pyFloat (hums.getD (is.getD k 0) dfltJ) =
            .ok (rows.getD k dfltRow).hum ∧
          (rows.getD k dfltRow).lat = lat ∧
          (rows.getD k dfltRow).lon = lon := by
  intro is
  induction is with
  | nil =>
    intro _
    refine ⟨[], rfl, rfl, ?_⟩
    intro k hk
    simp at hk
  | cons j js ih =>
    intro h
    obtain ⟨⟨tq, htq⟩, ⟨hq, hhq⟩⟩ := h j (List.mem_cons_self j js)
    obtain ⟨rest, hrest, hlen, hidx⟩ :=
      ih (fun i hi => h i (List.mem_cons_of_mem _ hi))
    refine ⟨⟨times.getD j emptyStr, tq, hq, lat, lon⟩ :: rest, ?_, ?_, ?_⟩
    · simp only [buildRowsAux, htq, hhq, hrest]
    · simp [hlen]
    · intro k hk
      cases k with
      | zero =>
        refine ⟨by simp, ?_, ?_, by simp, by simp⟩
        · simpa using htq
        · simpa using hhq
      | succ k2 =>
        have hk2 : k2 < js.length := by
          simpa using hk
        simpa only [List.getD_cons_succ] using hidx k2 hk2

theorem weather_report_ok_build {lat lon : ℚ} {data : UpstreamJson}
    {hourly : HourlyJson} {s : Store} {rows : List Row}
    (hd : data.hourly = some hourly)
    (hb : buildRows lat lon (hourly.time.getD []) (hourly.temperature_2m.getD [])
      (hourly.relative_humidity_2m.getD [])
      (minLen (hourly.time.getD []) (hourly.temperature_2m.getD [])
        (hourly.relative_humidity_2m.getD [])) = .ok rows) :
    weather_report lat lon data s =
      .ok (⟨msgStored, lat, lon, rows.length, (insert_weather_rows s rows).2⟩,
        (insert_weather_rows s rows).1) := by
  simp only [weather_report, hd, hb]

theorem weather_report_ok_inv {lat lon : ℚ} {data : UpstreamJson} {s : Store}
    {r1 : ReportResult} {s1 : Store}
    (h : weather_report lat lon data s = .ok (r1, s1)) :
    ∃ hourly rows, data.hourly = some hourly ∧
      buildRows lat lon (hourly.time.getD []) (hourly.temperature_2m.getD [])
        (hourly.relative_humidity_2m.getD [])
        (minLen (hourly.time.getD []) (hourly.temperature_2m.getD [])
          (hourly.relative_humidity_2m.getD [])) = .ok rows ∧
      s1 = (insert_weather_rows s rows).1 ∧
      r1 = ⟨msgStored, lat, lon, rows.length, (insert_weather_rows s rows).2⟩ := by
  cases hd : data.hourly with
  | none =>
    simp only [weather_report, hd] at h
    exact absurd h (by simp)
  | some hourly =>
    simp only [weather_report, hd] at h
    cases hb : buildRows lat lon (hourly.time.getD [])
        (hourly.temperature_2m.getD []) (hourly.relative_humidity_2m.getD [])
        (minLen (hourly.time.getD []) (hourly.temperature_2m.getD [])
          (hourly.relative_humidity_2m.getD [])) with
    | error e =>
      rw [hb] at h
      exact absurd h (by simp)
    | ok rows =>
      rw [hb] at h
      simp only [Except.ok.injEq, Prod.mk.injEq] at h
      exact ⟨hourly, rows, rfl, hb, h.2.symm, h.1.symm⟩

/-- Claim C1: key uniqueness with insert-if-absent semantics.  After any
sequence of `insert_weather_rows` calls starting from the empty table, no two
rows share the same `(timestamp, latitude, longitude)` key; and inserting a
record whose key is already present leaves the store entirely unchanged (the
existing row wins, no second row is created) and reports zero inserted
rows. -/
theorem c1_key_uniqueness :
    (∀ bs : List (List Row), NodupKeys (runBatches bs)) ∧
    (∀ (s : Store) (r : Row), hasKey s r.key = true →
      insert_weather_rows s [r] = (s, 0)) := by
  constructor
  · exact nodupKeys_runBatches
  · intro s r h
    refine insert_rows_all_present [r] s ?_
    intro x hx
    rcases List.mem_singleton.mp hx with rfl
    exact h

/-- Witness for C1 at a concrete store and record. -/
theorem c1_key_uniqueness_witness :
    NodupKeys (runBatches [[⟨("t"), 1, 2, 3, 4⟩]]) ∧
    insert_weather_rows [⟨("t"), 1, 2, 3, 4⟩] [⟨("t"), 1, 2, 3, 4⟩] =
      ([⟨("t"), 1, 2, 3, 4⟩], 0) :=
  ⟨c1_key_uniqueness.1 [[⟨("t"), 1, 2, 3, 4⟩]],
   c1_key_uniqueness.2 [⟨("t"), 1, 2, 3, 4⟩] ⟨("t"), 1, 2, 3, 4⟩ (by decide)⟩

/-- Claim C2: dedup idempotence.  If a `/weather-report` call on a fixed
upstream response succeeds and produces store `s1`, then repeating the very
same call on `s1` succeeds, leaves the store at `s1`, reports
`db_inserted_rows = 0`, and reports the same `requested_records`. -/
theorem c2_dedup_idempotence (lat lon : ℚ) (data : UpstreamJson) (s : Store)
    (r1 : ReportResult) (s1 : Store)
    (h : weather_report lat lon data s = .ok (r1, s1)) :
    ∃ r2 : ReportResult, weather_report lat lon data s1 = .ok (r2, s1) ∧
      r2.db_inserted_rows = 0 ∧
      r2.requested_records = r1.requested_records := by
  obtain ⟨hourly, rows, hd, hb, hs1, hr1⟩ := weather_report_ok_inv h
  have hall : ∀ r ∈ rows, hasKey s1 r.key = true := by
    intro r hr
    rw [hs1]
    exact mem_hasKey_insert_rows rows s r hr
  have hins : insert_weather_rows s1 rows = (s1, 0) :=
    insert_rows_all_present rows s1 hall
  refine ⟨⟨msgStored, lat, lon, rows.length, 0⟩, ?_, rfl, ?_⟩
  · have h2 := weather_report_ok_build (s := s1) hd hb
    rw [hins] at h2
    exact h2
  · rw [hr1]

/-- Witness for C2 at a concrete response and store. -/
theorem c2_dedup_idempotence_witness :
    ∃ r2 : ReportResult,
      weather_report 1 2 ⟨some ⟨some [("a")], some [.num 3], some [.num 4]⟩⟩
        [⟨("a"), 3, 4, 1, 2⟩] = .ok (r2, [⟨("a"), 3, 4, 1, 2⟩]) ∧
      r2.db_inserted_rows = 0 ∧
      r2.requested_records = (⟨msgStored, 1, 2, 1, 1⟩ : ReportResult).requested_records :=
  c2_dedup_idempotence 1 2 ⟨some ⟨some [("a")], some [.num 3], some [.num 4]⟩⟩
    [] ⟨msgStored, 1, 2, 1, 1⟩ [⟨("a"), 3, 4, 1, 2⟩] rfl

/-- Claim C10: for every ingest call that succeeds, the reported
`db_inserted_rows` never exceeds `requested_records` (both are naturals in
the model, hence non-negative). -/
theorem c10_inserted_le_requested (lat lon : ℚ) (data : UpstreamJson)
    (s : Store) (r : ReportResult) (s1 : Store)
    (h : weather_report lat lon data s = .ok (r, s1)) :
    r.db_inserted_rows ≤ r.requested_records := by
  obtain ⟨hourly, rows, hd, hb, hs1, hr⟩ := weather_report_ok_inv h
  have hcount := insert_rows_count_le rows s
  rw [hr]
  exact hcount

/-- Witness for C10 at a concrete successful call. -/
theorem c10_inserted_le_requested_witness :
    (⟨msgStored, 1, 2, 1, 1⟩ : ReportResult).db_inserted_rows ≤
      (⟨msgStored, 1, 2, 1, 1⟩ : ReportResult).requested_records :=
  c10_inserted_le_requested 1 2
    ⟨some ⟨some [("a")], some [.num 3], some [.num 4]⟩⟩ []
    ⟨msgStored, 1, 2, 1, 1⟩ [⟨("a"), 3, 4, 1, 2⟩] rfl

/-- Claim C4 counterexample: an upstream response whose `hourly` object is
present but lacks the `temperature_2m` and `relative_humidity_2m` sequences
makes `/weather-report` SUCCEED with zero records, rather than fail with a
malformed-response error as the claim states. -/
theorem c4_counterexample :
    weather_report 1 2 ⟨some ⟨some [("2026-01-01T00:00")], none, none⟩⟩ [] =
      .ok (⟨msgStored, 1, 2, 0, 0⟩, []) := rfl

/-- Claim C4 (amended): ingest fails with the malformed-response error only
when the `hourly` object itself is missing (or falsy); when `hourly` is
present but any one of the three sequences is missing, the missing sequence
defaults to the empty list, the truncated length becomes zero, and the call
succeeds with `requested_records = 0` and `db_inserted_rows = 0`, leaving
the store unchanged. -/
theorem c4_malformed_detection (lat lon : ℚ) (data : UpstreamJson) (s : Store) :
    (data.hourly = none →
      weather_report lat lon data s = .error msgMissingHourly) ∧
    (∀ hourly : HourlyJson, data.hourly = some hourly →
      (hourly.time = none ∨ hourly.temperature_2m = none ∨
        hourly.relative_humidity_2m = none) →
      weather_report lat lon data s = .ok (⟨msgStored, lat, lon, 0, 0⟩, s)) := by
  constructor
  · intro hd
    simp only [weather_report, hd]
  · intro hourly hd hmiss
    have hlen : minLen (hourly.time.getD []) (hourly.temperature_2m.getD [])
        (hourly.relative_humidity_2m.getD []) = 0 := by
      rcases hmiss with hm | hm | hm <;> simp [minLen, hm]
    have hb : buildRows lat lon (hourly.time.getD [])
        (hourly.temperature_2m.getD []) (hourly.relative_humidity_2m.getD [])
        (minLen (hourly.time.getD []) (hourly.temperature_2m.getD [])
          (hourly.relative_humidity_2m.getD [])) = .ok [] := by
      rw [hlen]
      rfl
    have h2 := weather_report_ok_build (s := s) hd hb
    simpa [insert_weather_rows] using h2

/-- Witness for C4 (amended): a missing `hourly` object errors; a present
`hourly` with a missing temperature sequence succeeds with zero records. -/
theorem c4_malformed_detection_witness :
    weather_report 1 2 ⟨none⟩ [] = .error msgMissingHourly ∧
    weather_report 1 2 ⟨some ⟨some [("2026-01-01T00:00")], none,
        some [.num 50]⟩⟩ [] = .ok (⟨msgStored, 1, 2, 0, 0⟩, []) :=
  ⟨(c4_malformed_detection 1 2 ⟨none⟩ []).1 rfl,
   (c4_malformed_detection 1 2
      ⟨some ⟨some [("2026-01-01T00:00")], none, some [.num 50]⟩⟩ []).2
     ⟨some [("2026-01-01T00:00")], none, some [.num 50]⟩ rfl
     (Or.inr (Or.inl rfl))⟩

/-- Claim C5 counterexample: a batch whose first record carries a non-numeric
temperature and whose second record is perfectly well formed makes the whole
ingest call fail; the malformed record is not "skipped" in isolation, and the
well-formed record is not inserted either (the store would stay empty). -/
theorem c5_counterexample :
    weather_report 1 2 ⟨some ⟨some [("a"), ("b")],
        some [.other ("bad"), .num 5], some [.num 50, .num 60]⟩⟩ [] =
      .error ("bad") := rfl

/-- Claim C5 (amended): a record with a non-numeric value does not get
skipped individually — it aborts the entire ingest request with an error, so
none of the batch is inserted; duplicate records, by contrast, are skipped
independently: dropping an already-present record from a batch changes
neither the resulting store nor the inserted count. -/
theorem c5_malformed_aborts_duplicates_skipped :
    (∀ (lat lon : ℚ) (times : List String) (temps hums : List JVal)
        (s : Store) (i : Nat), i < minLen times temps hums →
      ((∃ e, pyFloat (temps.getD i dfltJ) = .error e) ∨
       (∃ e, pyFloat (hums.getD i dfltJ) = .error e)) →
      ∃ e, weather_report lat lon ⟨some ⟨some times, some temps, some hums⟩⟩ s =
        .error e) ∧
    (∀ (s : Store) (l₁ l₂ : List Row) (r : Row),
      hasKey (insert_weather_rows s l₁).1 r.key = true →
      insert_weather_rows s (l₁ ++ r :: l₂) = insert_weather_rows s (l₁ ++ l₂)) := by
  constructor
  · intro lat lon times temps hums s i hi hbad
    have hmem : i ∈ List.range (minLen times temps hums) :=
      List.mem_range.mpr hi
    obtain ⟨e, he⟩ :=
      buildRowsAux_error lat lon times temps hums i _ hmem hbad
    have he2 : buildRows lat lon times temps hums (minLen times temps hums) =
        .error e := he
    refine ⟨e, ?_⟩
    simp only [weather_report, Option.getD_some]
    rw [he2]
  · intro s l₁ l₂ r h
    exact insert_rows_skip_dup s l₁ l₂ r h

/-- Witness for C5 (amended) at concrete batches. -/
theorem c5_malformed_aborts_duplicates_skipped_witness :
    (∃ e, weather_report 1 2 ⟨some ⟨some [("a")], some [.other ("bad")],
        some [.num 5]⟩⟩ [] = .error e) ∧
    insert_weather_rows [] ([⟨("t"), 1, 2, 3, 4⟩] ++ ⟨("t"), 1, 2, 3, 4⟩ ::
        [⟨("u"), 5, 6, 7, 8⟩]) =
      insert_weather_rows [] ([⟨("t"), 1, 2, 3, 4⟩] ++ [⟨("u"), 5, 6, 7, 8⟩]) :=
  ⟨c5_malformed_aborts_duplicates_skipped.1 1 2 [("a")] [.other ("bad")]
      [.num 5] [] 0 (by decide) (Or.inl ⟨("bad"), rfl⟩),
   c5_malformed_aborts_duplicates_skipped.2 [] [⟨("t"), 1, 2, 3, 4⟩]
      [⟨("u"), 5, 6, 7, 8⟩] ⟨("t"), 1, 2, 3, 4⟩ (by decide)⟩

theorem range_getD {n k : Nat} (h : k < n) : (List.range n).getD k 0 = k := by
  have hlen : k < (List.range n).length := by
    rw [List.length_range]
    exact h
  rw [List.getD_eq_getElem _ _ hlen, List.getElem_range]

/-- Claim C6: truncation policy.  When every scalar in the first
`min(a, b, c)` positions converts, ingest succeeds and produces exactly
`min(a, b, c)` records, pairing the three sequences index by index and
tagging each record with the requested `(lat, lon)`. -/
theorem c6_truncation (lat lon : ℚ) (times : List String)
    (temps hums : List JVal) (s : Store)
    (hconv : ∀ i, i < minLen times temps hums →
      (∃ q, pyFloat (temps.getD i dfltJ) = .ok q) ∧
      (∃ q, pyFloat (hums.getD i dfltJ) = .ok q)) :
    ∃ rows,
      buildRows lat lon times temps hums (minLen times temps hums) = .ok rows ∧
      weather_report lat lon ⟨some ⟨some times, some temps, some hums⟩⟩ s =
        .ok (⟨msgStored, lat, lon, rows.length, (insert_weather_rows s rows).2⟩,
          (insert_weather_rows s rows).1) ∧
      rows.length = minLen times temps hums ∧
      (∀ k, k < rows.length →
        (rows.getD k dfltRow).ts = times.getD k emptyStr ∧
        pyFloat (temps.getD k dfltJ) = .ok (rows.getD k dfltRow).temp ∧
        pyFloat (hums.getD k dfltJ) = .ok (rows.getD k dfltRow).hum ∧
        (rows.getD k dfltRow).lat = lat ∧
        (rows.getD k dfltRow).lon = lon) := by
  obtain ⟨rows, hrows, hlen, hidx⟩ :=
    buildRowsAux_ok lat lon times temps hums
      (List.range (minLen times temps hums))
      (fun i hi => hconv i (List.mem_range.mp hi))
  have hb : buildRows lat lon times temps hums (minLen times temps hums) =
      .ok rows := hrows
  refine ⟨rows, hb, ?_, ?_, ?_⟩
  · exact weather_report_ok_build rfl hb
  · rw [hlen, List.length_range]
  · intro k hk
    have hkL : k < minLen times temps hums := by
      rw [hlen, List.length_range] at hk
      exact hk
    have hkR : k < (List.range (minLen times temps hums)).length := by
      rw [List.length_range]
      exact hkL
    have h2 := hidx k hkR
    rw [range_getD hkL] at h2
    exact h2

/-- Witness for C6: sequences of lengths 5, 5 and 3 produce exactly 3
records. -/
theorem c6_truncation_witness :
    ∃ rows,
      buildRows 1 2 [("a"), ("b"), ("c"), ("d"), ("e")]
        [.num 21, .num 22, .num 23, .num 24, .num 25]
        [.num 50, .num 51, .num 52]
        (minLen [("a"), ("b"), ("c"), ("d"), ("e")]
          [.num 21, .num 22, .num 23, .num 24, .num 25]
          [.num 50, .num 51, .num 52]) = .ok rows ∧
      weather_report 1 2 ⟨some ⟨some [("a"), ("b"), ("c"), ("d"), ("e")],
          some [.num 21, .num 22, .num 23, .num 24, .num 25],
          some [.num 50, .num 51, .num 52]⟩⟩ [] =
        .ok (⟨msgStored, 1, 2, rows.length, (insert_weather_rows [] rows).2⟩,
          (insert_weather_rows [] rows).1) ∧
      rows.length = minLen [("a"), ("b"), ("c"), ("d"), ("e")]
        [.num 21, .num 22, .num 23, .num 24, .num 25]
        [.num 50, .num 51, .num 52] ∧
      (∀ k, k < rows.length →
        (rows.getD k dfltRow).ts =
          [("a"), ("b"), ("c"), ("d"), ("e")].getD k emptyStr ∧
        pyFloat ([.num 21, .num 22, .num 23, .num 24, .num 25].getD k dfltJ) =
          .ok (rows.getD k dfltRow).temp ∧
        pyFloat ([.num 50, .num 51, .num 52].getD k dfltJ) =
          .ok (rows.getD k dfltRow).hum ∧
        (rows.getD k dfltRow).lat = 1 ∧
        (rows.getD k dfltRow).lon = 2) :=
  c6_truncation 1 2 [("a"), ("b"), ("c"), ("d"), ("e")]
    [.num 21, .num 22, .num 23, .num 24, .num 25]
    [.num 50, .num 51, .num 52] []
    (by
      intro i hi
      have h3 : i = 0 ∨ i = 1 ∨ i = 2 := by
        simp [minLen] at hi
        omega
      rcases h3 with rfl | rfl | rfl
      · exact ⟨⟨21, rfl⟩, ⟨50, rfl⟩⟩
      · exact ⟨⟨22, rfl⟩, ⟨51, rfl⟩⟩
      · exact ⟨⟨23, rfl⟩, ⟨52, rfl⟩⟩)

/-- Claim C3 counterexample: a stored observation whose timestamp, read as an
instant, is exactly `now - 48h` (so `>= since` holds on instants) is NOT
returned by the window query: the TEXT comparison compares the stored string
`2026-10-08T12:00` against the bound string `2026-10-08T12:00:00+00:00`, and
the former is a strict prefix, hence strictly smaller.  `1791633600` is the
instant 2026-10-10T12:00:00Z, so `since = now - 172800 s` is
2026-10-08T12:00:00Z — the very instant the stored timestamp denotes. -/
theorem c3_counterexample :
    fetch_last_48h 1791633600 [⟨("2026-10-08T12:00"), 20, 50, 1, 2⟩]
      none none = [] ∧
    specTimestampInstant ("2026-10-08T12:00") = some (1791633600 - 172800) ∧
    isoUtc (1791633600 - 172800) = "2026-10-08T12:00:00+00:00" := by
  refine ⟨by decide, by decide, by decide⟩

/-- Claim C3 (amended): with no location filter, the window query returns
exactly the stored observations whose timestamp STRING is lexicographically
`>=` the ISO-8601 rendering of `now - 48h` (truncated to whole seconds), in
ascending lexicographic timestamp order, regardless of the store's insertion
order.  (This agrees with the instant reading only when the stored
timestamps use the same canonical ISO format as the bound.) -/
theorem c3_window_correctness (nowF : Nat) (s s2 : Store) (hperm : s.Perm s2) :
    (fetch_last_48h nowF s none none).Perm
      (s.filter (fun r => sqlLeb (isoUtc (nowF - 172800)) r.ts)) ∧
    List.Sorted (fun a b : Row => sqlLeb a.ts b.ts = true)
      (fetch_last_48h nowF s none none) ∧
    (fetch_last_48h nowF s none none).Perm
      (fetch_last_48h nowF s2 none none) := by
  have hdef : ∀ st : Store, fetch_last_48h nowF st none none =
      List.insertionSort (fun a b => sqlLeb a.ts b.ts = true)
        (st.filter (fun r => sqlLeb (isoUtc (nowF - 172800)) r.ts)) :=
    fun st => rfl
  refine ⟨?_, ?_, ?_⟩
  · rw [hdef]
    exact List.perm_insertionSort _ _
  · rw [hdef]
    exact List.sorted_insertionSort _ _
  · rw [hdef, hdef]
    exact (List.perm_insertionSort _ _).trans
      ((hperm.filter _).trans (List.perm_insertionSort _ _).symm)

/-- Witness for C3 (amended) on a concrete two-row store and its reversal. -/
theorem c3_window_correctness_witness :
    (fetch_last_48h 1791633600
        [⟨("9999-01-01T00:00"), 1, 2, 3, 4⟩, ⟨("9999-01-02T00:00"), 5, 6, 7, 8⟩]
        none none).Perm
      ([⟨("9999-01-01T00:00"), 1, 2, 3, 4⟩,
        ⟨("9999-01-02T00:00"), 5, 6, 7, 8⟩].filter
        (fun r => sqlLeb (isoUtc (1791633600 - 172800)) r.ts)) ∧
    List.Sorted (fun a b : Row => sqlLeb a.ts b.ts = true)
      (fetch_last_48h 1791633600
        [⟨("9999-01-01T00:00"), 1, 2, 3, 4⟩, ⟨("9999-01-02T00:00"), 5, 6, 7, 8⟩]
        none none) ∧
    (fetch_last_48h 1791633600
        [⟨("9999-01-01T00:00"), 1, 2, 3, 4⟩, ⟨("9999-01-02T00:00"), 5, 6, 7, 8⟩]
        none none).Perm
      (fetch_last_48h 1791633600
        [⟨("9999-01-02T00:00"), 5, 6, 7, 8⟩, ⟨("9999-01-01T00:00"), 1, 2, 3, 4⟩]
        none none) :=
  c3_window_correctness 1791633600
    [⟨("9999-01-01T00:00"), 1, 2, 3, 4⟩, ⟨("9999-01-02T00:00"), 5, 6, 7, 8⟩]
    [⟨("9999-01-02T00:00"), 5, 6, 7, 8⟩, ⟨("9999-01-01T00:00"), 1, 2, 3, 4⟩]
    (by decide)

theorem export_pdf_nonempty (nowPdf nowF : Nat) (s : Store)
    (lat lon : Option ℚ) (h : fetch_last_48h nowF s lat lon ≠ []) :
    export_pdf nowPdf nowF s lat lon =
      [.para ("Title") ("Weather Report"),
       .spacer,
       .para ("Normal") ("<b>Location:</b> " ++
         (if pyTruthy lat && pyTruthy lon then
           "lat=" ++ ratStr (lat.getD 0) ++ ", lon=" ++ ratStr (lon.getD 0)
          else "All locations")),
       .para ("Normal") ("<b>Date range:</b> " ++
         (strftimeUTC (nowPdf - 172800) ++ " to " ++ strftimeUTC nowPdf)),
       .spacer,
       .image] := by
  simp only [export_pdf]
  rw [if_neg h]

/-- Claim C7: empty-window report.  When the 48-hour window query returns no
rows, the PDF story is exactly a title and the no-data notice — no chart —
and the export succeeds (the model is a total function). -/
theorem c7_empty_window (nowPdf nowF : Nat) (s : Store) (lat lon : Option ℚ)
    (h : fetch_last_48h nowF s lat lon = []) :
    export_pdf nowPdf nowF s lat lon =
      [.para ("Title") ("Weather Report"),
       .para ("Normal") ("No data available for last 48 hours.")] ∧
    PdfElem.image ∉ export_pdf nowPdf nowF s lat lon := by
  have he : export_pdf nowPdf nowF s lat lon =
      [.para ("Title") ("Weather Report"),
       .para ("Normal") ("No data available for last 48 hours.")] := by
    simp [export_pdf, h]
  refine ⟨he, ?_⟩
  rw [he]
  decide

/-- Witness for C7 on the empty store. -/
theorem c7_empty_window_witness :
    export_pdf 1791633600 1791633600 [] none none =
      [.para ("Title") ("Weather Report"),
       .para ("Normal") ("No data available for last 48 hours.")] ∧
    PdfElem.image ∉ export_pdf 1791633600 1791633600 [] none none :=
  c7_empty_window 1791633600 1791633600 [] none none (by decide)

/-- Claim C8: the date-range line of a non-empty report is computed from the
requested window bounds (`now - 48h` to `now`) alone; two exports at the same
clock instant over different stores, filters and window contents carry the
identical date-range line, independent of the min/max timestamps actually
present in the queried rows. -/
theorem c8_date_range_independent (nowPdf nowF : Nat) (s1 s2 : Store)
    (lat1 lon1 lat2 lon2 : Option ℚ)
    (h1 : fetch_last_48h nowF s1 lat1 lon1 ≠ [])
    (h2 : fetch_last_48h nowF s2 lat2 lon2 ≠ []) :
    (export_pdf nowPdf nowF s1 lat1 lon1).getD 3 default =
      .para ("Normal") ("<b>Date range:</b> " ++
        (strftimeUTC (nowPdf - 172800) ++ " to " ++ strftimeUTC nowPdf)) ∧
    (export_pdf nowPdf nowF s2 lat2 lon2).getD 3 default =
      (export_pdf nowPdf nowF s1 lat1 lon1).getD 3 default := by
  rw [export_pdf_nonempty nowPdf nowF s1 lat1 lon1 h1,
    export_pdf_nonempty nowPdf nowF s2 lat2 lon2 h2]
  exact ⟨rfl, rfl⟩

/-- Witness for C8 on two concrete one-row stores. -/
theorem c8_date_range_independent_witness :
    (export_pdf 1791633600 1791633600 [⟨("9999-01-01T00:00"), 1, 2, 3, 4⟩]
        none none).getD 3 default =
      .para ("Normal") ("<b>Date range:</b> " ++
        (strftimeUTC (1791633600 - 172800) ++ " to " ++
          strftimeUTC 1791633600)) ∧
    (export_pdf 1791633600 1791633600 [⟨("9999-02-02T00:00"), 5, 6, 7, 8⟩]
        (some 7) (some 8)).getD 3 default =
      (export_pdf 1791633600 1791633600 [⟨("9999-01-01T00:00"), 1, 2, 3, 4⟩]
        none none).getD 3 default :=
  c8_date_range_independent 1791633600 1791633600
    [⟨("9999-01-01T00:00"), 1, 2, 3, 4⟩] [⟨("9999-02-02T00:00"), 5, 6, 7, 8⟩]
    none none (some 7) (some 8) (by decide) (by decide)

/-- Claim C9, code bug: the location line is chosen by Python truthiness
(`if lat and lon`), not by a `None` check.  At `lat = 0.0` (the equator) with
`lon = 8.55` — a location that WAS given, and by which `fetch_last_48h`
actually filters — the report prints "All locations" instead of the
coordinate pair.  The claim (and the spec) say the specific pair is shown
whenever a location was given, and "All locations" exactly when none was
given. -/
theorem c9_location_line_bug :
    (some (0 : ℚ)).isSome = true ∧ (some (9 : ℚ)).isSome = true ∧
    (export_pdf 1791633600 1791633600
        [⟨("9999-01-01T00:00"), 1, 2, 0, 9⟩]
        (some 0) (some 9)).getD 2 default =
      .para ("Normal") ("<b>Location:</b> All locations") := by
  refine ⟨rfl, rfl, by decide⟩
